import Mathlib

/- Verification development for the probing, scoring and scan-orchestration
   engine of the vlsc repository (app/checks/netprobe.py, app/checks/scoring.py,
   app/checks/confidence.py, app/checks/xray_adapter.py, app/services/scanner.py,
   app/services/scan_runner.py).

   The Python sources are shallowly embedded: pure functions become Lean
   functions; the I/O boundary (socket connect outcomes, DNS answers, the
   monotonic clock, database rows, the external xray process) is passed in
   explicitly as data; Python floats are modelled as exact rationals (ℚ) or,
   where the source uses transcendental functions (math.log, 0.5 ** x), as
   reals (ℝ). -/

namespace Vlsc

/-! ## Error classifier (app/checks/netprobe.py, classify_error) -/

/-- The closed error taxonomy `ErrorType` of app/checks/netprobe.py. -/
inductive ErrorType where
  | dns_fail
  | conn_refused
  | timeout
  | unknown
deriving DecidableEq

/-- Python exception values that can reach `classify_error` or be raised inside
a probe.  The constructors are disjoint, which matches the order of the
`isinstance` tests in the source: a value modelled by one constructor is
dispatched by exactly the branch that constructor names (`osError` stands for
a plain `OSError` that is none of the more specific subclasses tested first;
`keyboardInterrupt` / `systemExit` are the process-fatal control signals, which
are `BaseException`s but not `Exception`s). -/
inductive PyExc where
  | gaierror
  | connectionRefused
  | timeoutError
  | socketTimeout
  | osError (errno : Option ℤ)
  | keyboardInterrupt
  | systemExit
  | runtimeError
deriving DecidableEq

/-- Embedding of `classify_error` (netprobe.py lines 66-75): gaierror → dns_fail;
ConnectionRefusedError → conn_refused; TimeoutError / socket.timeout → timeout;
OSError with errno in {110, 60} → timeout; everything else → unknown. -/
def classify_error (exc : PyExc) : ErrorType :=
  match exc with
  | .gaierror => .dns_fail
  | .connectionRefused => .conn_refused
  | .timeoutError => .timeout
  | .socketTimeout => .timeout
  | .osError errno => if errno = some 110 ∨ errno = some 60 then .timeout else .unknown
  | .keyboardInterrupt => .unknown
  | .systemExit => .unknown
  | .runtimeError => .unknown

/-- The string value of the Python `ErrorType` literal. -/
def errorTypeName : ErrorType → String
  | .dns_fail => "dns_fail"
  | .conn_refused => "conn_refused"
  | .timeout => "timeout"
  | .unknown => "unknown"

/-! ## TCP probe and Phase A (netprobe.py, tcp_probe / phase_a_dns_tcp) -/

/-- The dataclass `TcpAttempt` of netprobe.py. -/
structure TcpAttempt where
  success : Bool
  rtt_ms : Option ℚ
  error_type : Option ErrorType
deriving DecidableEq

/-- What the environment does when `tcp_probe` runs `socket.create_connection`:
either the connect succeeds after `rtt` milliseconds, or some exception is
raised inside the `try` block. -/
inductive ProbeOutcome where
  | ok (rtt : ℚ)
  | raise (exc : PyExc)
deriving DecidableEq

/-- Embedding of `tcp_probe` (netprobe.py lines 78-86).  The source wraps the
connect in `try ... except BaseException as exc`, so EVERY raised value —
including `KeyboardInterrupt` and `SystemExit` — is caught and turned into a
failed `TcpAttempt` via `classify_error`; nothing propagates. -/
def tcp_probe (outcome : ProbeOutcome) : TcpAttempt :=
  match outcome with
  | .ok rtt => ⟨true, some rtt, none⟩
  | .raise exc => ⟨false, none, some (classify_error exc)⟩

/-- The dataclass `PhaseAResult` of netprobe.py. -/
structure PhaseAResult where
  success : Bool
  dns_ok : Bool
  ip : Option String
  rtt_ms : Option ℚ
  error_type : Option ErrorType
  error_message : Option String
deriving DecidableEq

/-- What the environment does when `phase_a_dns_tcp` runs `socket.getaddrinfo`:
either a list of resolved addresses, or a raised exception together with its
`str(exc)` rendering (used for `error_message`). -/
abbrev DnsOutcome := Except (PyExc × String) (List String)

/-- Embedding of `phase_a_dns_tcp` (netprobe.py lines 89-111).  DNS resolution
is also wrapped in `except BaseException`, so a control signal raised there is
likewise swallowed into the result.  On resolution success the first address is
taken and one `tcp_probe` runs; `error_message` on a failed connect is the
error-type string (`attempt.error_type or "unknown"`). -/
def phase_a_dns_tcp (dns : DnsOutcome) (connect : ProbeOutcome) : PhaseAResult :=
  match dns with
  | .error e =>
      ⟨false, false, none, none, some (classify_error e.1), some e.2⟩
  | .ok entries =>
      let ip := entries.head?
      let attempt := tcp_probe connect
      ⟨attempt.success, true, ip, attempt.rtt_ms, attempt.error_type,
        if attempt.success then none
        else some (errorTypeName (attempt.error_type.getD .unknown))⟩

/-! ## Host cooldown (netprobe.py, HostCooldown) -/

/-- The process-wide cooldown map of `HostCooldown`: host identifier to its
"cooldown until" monotonic timestamp.  An absent key reads as 0.0
(`self._cooldown_until.get(host, 0.0)`), so the map is modelled as a total
function with 0 as the default. -/
def Cooldown := String → ℚ

/-- Embedding of `HostCooldown.in_cooldown`: compares the stored deadline with
`now` and lazily pops an expired entry (popping equals resetting it to the
default 0 under the default-0 read).  Returns the answer and the map after the
lazy expiry. -/
def in_cooldown (cd : Cooldown) (now : ℚ) (host : String) : Bool × Cooldown :=
  if cd host ≤ now then (false, fun h => if h = host then 0 else cd h)
  else (true, cd)

/-- Embedding of `HostCooldown.set_cooldown`: store `now + max(0, seconds)`. -/
def set_cooldown (cd : Cooldown) (now : ℚ) (host : String) (seconds : ℚ) : Cooldown :=
  fun h => if h = host then now + max 0 seconds else cd h

/-! ## Phase B (netprobe.py, phase_b_multi_tcp) -/

/-- The dataclass `PhaseBResult` of netprobe.py. -/
structure PhaseBResult where
  attempts : ℕ
  successes : ℕ
  success_rate : ℚ
  rtt_min_ms : Option ℚ
  rtt_median_ms : Option ℚ
  rtt_max_ms : Option ℚ
  jitter_ms : Option ℚ
  stopped_early : Bool
  samples : List TcpAttempt
deriving DecidableEq

/-- Minimum of a list of rationals (`min(success_rtts)`), `none` on empty. -/
def listMin (l : List ℚ) : Option ℚ :=
  match l with
  | [] => none
  | a :: r => some (r.foldl min a)

/-- Maximum of a list of rationals (`max(success_rtts)`), `none` on empty. -/
def listMax (l : List ℚ) : Option ℚ :=
  match l with
  | [] => none
  | a :: r => some (r.foldl max a)

/-- Embedding of `statistics.median`: sort, take the middle element for odd
length, the mean of the two middle elements for even length. -/
def medianQ (l : List ℚ) : ℚ :=
  let s := l.mergeSort (fun a b => a ≤ b)
  let n := s.length
  if n % 2 = 1 then s.getD (n / 2) 0
  else (s.getD (n / 2 - 1) 0 + s.getD (n / 2) 0) / 2

/-- Absolute differences between consecutive elements, in order
(`[abs(l[i] - l[i-1]) for i in range(1, len(l))]`). -/
def absDeltas : List ℚ → List ℚ
  | a :: b :: rest => |b - a| :: absDeltas (b :: rest)
  | _ => []

/-- The successful attempts' RTTs, in sample order
(`[s.rtt_ms for s in samples if s.success and s.rtt_ms is not None]`). -/
def successRtts (samples : List TcpAttempt) : List ℚ :=
  samples.filterMap (fun s => if s.success then s.rtt_ms else none)

/-- The sampling loop of `phase_b_multi_tcp` (netprobe.py lines 143-161),
with the per-iteration connect outcome supplied by `probe`.  `fuel` is the
number of loop iterations still allowed (`range(max(1, attempts))`), `idx` the
Python loop index, `sStreak` / `fStreak` the consecutive-success /
consecutive-failure streaks, `acc` the samples so far in reverse.  The loop
breaks early — marking `stopped_early` — when, after an attempt, either streak
has reached its threshold and `remaining = attempts - (idx + 1)` is positive.
The backoff `time.sleep` only spends wall-clock time and is not observable in
the result, so it has no counterpart here. -/
def phaseBLoop (probe : ℕ → TcpAttempt) (attempts : ℤ)
    (succThr failThr : ℕ) :
    ℕ → ℕ → ℕ → ℕ → List TcpAttempt → List TcpAttempt × Bool
  | 0, _, _, _, acc => (acc.reverse, false)
  | fuel + 1, idx, sStreak, fStreak, acc =>
      let result := probe idx
      let acc' := result :: acc
      let sStreak' := if result.success then sStreak + 1 else 0
      let fStreak' := if result.success then 0 else fStreak + 1
      let remaining := attempts - ((idx : ℤ) + 1)
      if (succThr ≤ sStreak' ∨ failThr ≤ fStreak') ∧ 0 < remaining then
        (acc'.reverse, true)
      else
        phaseBLoop probe attempts succThr failThr fuel (idx + 1) sStreak' fStreak' acc'

/-- The result `phase_b_multi_tcp` builds when the host was NOT in cooldown:
the sampling loop (driven by the per-attempt connect outcomes) followed by the
post-loop aggregation of netprobe.py lines 163-185.  `successes` counts the
samples that are successful and carry an RTT (`len(success_rtts)`), exactly as
the source does. -/
def phaseBMainResult (outcomes : ℕ → ProbeOutcome) (attempts : ℤ)
    (succThr failThr : ℕ) : PhaseBResult :=
  let looped := phaseBLoop (fun i => tcp_probe (outcomes i)) attempts
    succThr failThr (max 1 attempts).toNat 0 0 0 []
  let samples := looped.1
  let success_rtts := successRtts samples
  ⟨samples.length,
   success_rtts.length,
   if samples.length ≠ 0 then (success_rtts.length : ℚ) / (samples.length : ℚ) else 0,
   listMin success_rtts,
   if success_rtts.isEmpty then none else some (medianQ success_rtts),
   listMax success_rtts,
   if 2 ≤ success_rtts.length then
     some ((absDeltas success_rtts).sum / ((absDeltas success_rtts).length : ℚ))
   else none,
   looped.2, samples⟩

/-- Embedding of `phase_b_multi_tcp` (netprobe.py lines 114-185).  The
environment is explicit: `cd` is the shared cooldown map, `now` the monotonic
clock reading for this call (the source reads the clock separately at the
cooldown check and at the cooldown set; a single instant per call is used
here, which only widens the cooldown window slightly), `outcomes` the
successive `socket.create_connection` outcomes.  When the host is in cooldown
the call short-circuits with zero attempts and `stopped_early`; otherwise the
sampling runs and, when it ends with zero successes, the host is placed into
cooldown.  Returns the result with the cooldown map after the call. -/
def phase_b_multi_tcp (cd : Cooldown) (now : ℚ) (host : String)
    (outcomes : ℕ → ProbeOutcome) (attempts : ℤ)
    (succThr failThr : ℕ) (cooldown_s : ℚ) : PhaseBResult × Cooldown :=
  let checked := in_cooldown cd now host
  if checked.1 then
    (⟨0, 0, 0, none, none, none, none, true, []⟩, checked.2)
  else
    let r := phaseBMainResult outcomes attempts succThr failThr
    (r, if r.successes = 0 then set_cooldown checked.2 now host cooldown_s else checked.2)

/-! ## Scoring engine (app/checks/scoring.py) -/

/-- Embedding of Python's built-in `round` on an exact value: round half to
even (banker's rounding). -/
def pyRound (q : ℚ) : ℤ :=
  let f := ⌊q⌋
  let r := q - (f : ℚ)
  if r < 1 / 2 then f
  else if 1 / 2 < r then f + 1
  else if f % 2 = 0 then f else f + 1

/-- The `ERROR_PENALTIES` table of scoring.py (every `ErrorType` key is
present, so `dict.get(last_error, 0)` never falls back to the default). -/
def errorPenalty : ErrorType → ℤ
  | .dns_fail => 45
  | .conn_refused => 30
  | .timeout => 35
  | .unknown => 20

/-- A value of the `factors` audit dict of `ScoreExplain`: a number, or the
literal strings used for absent values. -/
inductive FactorVal where
  | num (q : ℚ)
  | str (s : String)
deriving DecidableEq

/-- The dataclass `ScoreExplain` of scoring.py. -/
structure ScoreExplain where
  total : ℤ
  availability_component : ℤ
  latency_component : ℤ
  stability_component : ℤ
  error_penalty : ℤ
  factors : List (String × FactorVal)
deriving DecidableEq

/-- Embedding of `_latency_points` (scoring.py lines 26-37). -/
def latency_points (latency_ms : Option ℚ) : ℤ :=
  match latency_ms with
  | none => 0
  | some l =>
      if l ≤ 60 then 30
      else if l ≤ 120 then 24
      else if l ≤ 250 then 16
      else if l ≤ 500 then 8
      else 2

/-- Embedding of `explainable_score` (scoring.py lines 40-69). -/
def explainable_score (success_rate : ℚ) (median_latency_ms : Option ℚ)
    (jitter_ms : Option ℚ) (last_error : Option ErrorType) : ScoreExplain :=
  let availability := pyRound (max 0 (min 1 success_rate) * 50)
  let latency := latency_points median_latency_ms
  let stability :=
    match jitter_ms with
    | none => if 0 < success_rate then 10 else 0
    | some j => max 0 (20 - pyRound (min j 200 / 10))
  let penalty :=
    match last_error with
    | none => 0
    | some e => errorPenalty e
  let total := max 0 (min 100 (availability + latency + stability - penalty))
  ⟨total, availability, latency, stability, penalty,
    [("success_rate", .num success_rate),
     ("median_latency_ms", match median_latency_ms with
        | some l => .num l
        | none => .str "n/a"),
     ("jitter_ms", match jitter_ms with
        | some j => .num j
        | none => .str "n/a"),
     ("last_error", .str (match last_error with
        | some e => errorTypeName e
        | none => "none"))]⟩

/-! ## Daily aggregate (app/services/scanner.py, _update_daily_aggregate and
recompute_daily_aggregate) -/

/-- The fields of a `Check` row that the daily aggregate reads: its status
("ok" iff `ok`) and its optional latency. -/
structure CheckRec where
  ok : Bool
  latency_ms : Option ℚ
deriving DecidableEq

/-- The per-(server, day) `DailyAggregate` row fields the aggregate logic
touches. -/
structure DailyAgg where
  checks_total : ℕ
  success_total : ℕ
  avg_latency_ms : Option ℚ
deriving DecidableEq

/-- Embedding of `ScannerService._update_daily_aggregate` (scanner.py lines
142-170) for one check: `none` is the absent row (the creation branch sets
`avg_latency_ms` directly to the check's latency, absent or not); the update
branch increments the counters and, when the check carries a latency, applies
the online mean `avg + (latency - avg) / (previous_checks_total + 1)` whose
denominator counts ALL prior checks of the day. -/
def update_daily_aggregate (aggregate : Option DailyAgg) (check : CheckRec) : DailyAgg :=
  match aggregate with
  | none =>
      ⟨1, if check.ok then 1 else 0, check.latency_ms⟩
  | some agg =>
      let previous_checks_total := agg.checks_total
      let checks_total := agg.checks_total + 1
      let success_total := agg.success_total + (if check.ok then 1 else 0)
      let avg :=
        match check.latency_ms with
        | none => agg.avg_latency_ms
        | some latency =>
            match agg.avg_latency_ms with
            | none => some latency
            | some a =>
                if previous_checks_total = 0 then some latency
                else some (a + (latency - a) / ((previous_checks_total : ℚ) + 1))
      ⟨checks_total, success_total, avg⟩

/-- Folding a day's checks one by one through the online update, starting from
no aggregate row. -/
def fold_daily_online (checks : List CheckRec) : Option DailyAgg :=
  checks.foldl (fun agg c => some (update_daily_aggregate agg c)) none

/-- Embedding of `ScannerService.recompute_daily_aggregate` (scanner.py lines
172-200): full offline recomputation over all of the day's checks — total
count, "ok" count, and the mean over the latency-bearing checks only. -/
def recompute_daily_aggregate (checks : List CheckRec) : DailyAgg :=
  let latencies := checks.filterMap (fun c => c.latency_ms)
  ⟨checks.length,
   (checks.filter (fun c => c.ok)).length,
   if latencies.isEmpty then none
   else some (latencies.sum / (latencies.length : ℚ))⟩

/-! ## Scan pipeline decision (app/services/scanner.py, scan_server,
full_scan branch lines 63-95) -/

/-- Python `or` between an optional float and a fallback: the left value wins
iff it is truthy (present and nonzero). -/
def pyOrOptQ (a b : Option ℚ) : Option ℚ :=
  match a with
  | some q => if q ≠ 0 then some q else b
  | none => b

/-- The status / error-message / latency triple `scan_server` persists. -/
structure ScanDecision where
  status : String
  error_message : Option String
  latency_ms : Option ℚ
deriving DecidableEq

/-- Embedding of the `full_scan` outcome logic of `ScannerService.scan_server`
(scanner.py lines 74-87): the check is "ok" only when Phase A succeeded and
Phase B has at least one successful probe (`successes > 0 or success_rate >
0.0`); on failure the error message is Phase A's when Phase A failed, else the
fixed string "phase_b_has_no_successful_probes"; reported latency is
`phase_b.rtt_median_ms or phase_a.rtt_ms`. -/
def scan_server_full (phase_a : PhaseAResult) (phase_b : PhaseBResult) : ScanDecision :=
  let phase_b_has_success := 0 < phase_b.successes ∨ 0 < phase_b.success_rate
  let status := if phase_a.success = true ∧ phase_b_has_success then "ok" else "fail"
  let error_message :=
    if status = "ok" then none
    else if phase_a.success = false then phase_a.error_message
    else some "phase_b_has_no_successful_probes"
  ⟨status, error_message, pyOrOptQ phase_b.rtt_median_ms phase_a.rtt_ms⟩

/-! ## Confidence engine (app/checks/confidence.py)

The source mixes rational arithmetic with `math.log1p` / `math.log` and the
float power `0.5 ** x`, so this component is embedded over ℝ.  Timestamps
(`last_checked_at`, `now`) are seconds on a common clock;
`(now - last).total_seconds()` becomes plain subtraction. -/

/-- The dataclass `ConfidenceInput` of confidence.py. -/
structure ConfidenceInput where
  success_count : ℤ
  total_count : ℤ
  jitter_ms : Option ℝ
  last_checked_at : Option ℝ
  now : ℝ

/-- The dataclass `ConfidenceResult` of confidence.py; the `components` dict
is kept as a key-value list in insertion order. -/
structure ConfidenceResult where
  confidence : ℝ
  components : List (String × ℝ)

/-- The `success_ratio` local of `calculate_confidence`. -/
noncomputable def confSuccessRatio (metrics : ConfidenceInput) : ℝ :=
  (metrics.success_count : ℝ) / (metrics.total_count : ℝ)

/-- The `volume` local of `calculate_confidence`:
`min(1.0, math.log1p(total_count) / math.log(11))`. -/
noncomputable def confVolume (metrics : ConfidenceInput) : ℝ :=
  min 1 (Real.log (1 + (metrics.total_count : ℝ)) / Real.log 11)

/-- The `stability` local of `calculate_confidence`: 0.5 when jitter is
unknown, else `max(0.0, 1.0 - min(jitter_ms, 200.0) / 200.0)`. -/
noncomputable def confStability (metrics : ConfidenceInput) : ℝ :=
  match metrics.jitter_ms with
  | none => 0.5
  | some j => max 0 (1 - min j 200 / 200)

/-- The `recency` local of `calculate_confidence`: 0 when never checked
before, else `0.5 ** (age_h / max(half_life_hours, 0.01))` with
`age_h = max(0.0, (now - last_checked_at) / 3600)` in hours. -/
noncomputable def confRecency (metrics : ConfidenceInput) (half_life_hours : ℝ) : ℝ :=
  match metrics.last_checked_at with
  | none => 0
  | some t => (0.5 : ℝ) ^ (max 0 ((metrics.now - t) / 3600) / max half_life_hours 0.01)

/-- Embedding of `calculate_confidence` (confidence.py lines 23-50).  Note the
`total_count <= 0` branch returns a components dict holding only the keys
"volume", "stability" and "recency" — there is no "success_ratio" entry in
that branch. -/
noncomputable def calculate_confidence (metrics : ConfidenceInput)
    (half_life_hours : ℝ) : ConfidenceResult :=
  if metrics.total_count ≤ 0 then
    ⟨0, [("volume", 0), ("stability", 0), ("recency", 0)]⟩
  else
    ⟨max 0 (min 1 (0.5 * confSuccessRatio metrics + 0.25 * confVolume metrics +
        0.15 * confStability metrics + 0.10 * confRecency metrics half_life_hours)),
     [("success_ratio", confSuccessRatio metrics), ("volume", confVolume metrics),
      ("stability", confStability metrics),
      ("recency", confRecency metrics half_life_hours)]⟩

/-! ## Xray adapter (app/checks/xray_adapter.py, _normalize_vless_config and
phase_c_http_check) -/

/-- The dataclass `PhaseCResult` of xray_adapter.py. -/
structure PhaseCResult where
  enabled : Bool
  available : Bool
  success : Bool
  latency_ms : Option ℚ
  error_message : Option String
deriving DecidableEq

/-- A value read out of the metadata dict: absent (`None` or no key), a
string, or an integer.  Python truthiness drives every `or` fallback and every
`if not ...` check in the normalizer. -/
inductive PyVal where
  | none
  | str (s : String)
  | int (n : ℤ)
deriving DecidableEq

/-- Python truthiness of a metadata value: `None` is falsy, a string is truthy
iff nonempty, an int is truthy iff nonzero. -/
def PyVal.truthy : PyVal → Bool
  | .none => false
  | .str s => s ≠ ""
  | .int n => n ≠ 0

/-- Python `a or b` on metadata values: `a` wins iff truthy. -/
def pyOr (a b : PyVal) : PyVal := if a.truthy then a else b

/-- The keys `_normalize_vless_config` reads from the nested `query` dict. -/
structure VlessQuery where
  security : PyVal
  type_ : PyVal
  sni : PyVal
  serverName : PyVal
  fp : PyVal
  flow : PyVal
  path : PyVal
  host : PyVal
  serviceName : PyVal
deriving DecidableEq

/-- The keys `_normalize_vless_config` reads from the metadata dict itself.
`query` is `none` when the "query" key is absent or not a dict (the source
then treats it as `{}`). -/
structure VlessDict where
  host : PyVal
  port : PyVal
  id : PyVal
  uuid : PyVal
  user_id : PyVal
  security : PyVal
  network : PyVal
  type_ : PyVal
  sni : PyVal
  serverName : PyVal
  fp : PyVal
  flow : PyVal
  path : PyVal
  ws_host : PyVal
  host_header : PyVal
  serviceName : PyVal
  query : Option VlessQuery
deriving DecidableEq

/-- Reading a key of the (possibly absent) `query` dict: `query.get(k)`. -/
def qget (cfg : VlessDict) (f : VlessQuery → PyVal) : PyVal :=
  match cfg.query with
  | some q => f q
  | Option.none => PyVal.none

/-- The `normalized` dict built by `_normalize_vless_config` (xray_adapter.py
lines 158-170), with every `query.get(...) or vless_config.get(...)` fallback
chain spelled out. -/
structure VlessNormalized where
  host : PyVal
  port : PyVal
  id : PyVal
  security : PyVal
  network : PyVal
  sni : PyVal
  fp : PyVal
  flow : PyVal
  ws_path : PyVal
  ws_host : PyVal
  grpc_service_name : PyVal
deriving DecidableEq

/-- The field-resolution part of `_normalize_vless_config`. -/
def normalizedFields (cfg : VlessDict) : VlessNormalized :=
  { host := cfg.host
    port := cfg.port
    id := pyOr cfg.id (pyOr cfg.uuid cfg.user_id)
    security := pyOr (qget cfg (·.security)) (pyOr cfg.security (.str "none"))
    network := pyOr (qget cfg (·.type_)) (pyOr cfg.network (pyOr cfg.type_ (.str "tcp")))
    sni := pyOr (qget cfg (·.sni)) (pyOr (qget cfg (·.serverName)) (pyOr cfg.sni cfg.serverName))
    fp := pyOr (qget cfg (·.fp)) cfg.fp
    flow := pyOr (qget cfg (·.flow)) cfg.flow
    ws_path := pyOr (qget cfg (·.path)) cfg.path
    ws_host := pyOr (qget cfg (·.host)) (pyOr cfg.ws_host cfg.host_header)
    grpc_service_name := pyOr (qget cfg (·.serviceName)) cfg.serviceName }

/-- The `missing` list built by `_normalize_vless_config` (xray_adapter.py
lines 172-181), in the order the source appends: always-required host, port,
identity; then sni and fp when the security mode is not "none"; then the
web-socket path and the gRPC service name when the transport requires them. -/
def missingFields (cfg : VlessDict) : List String :=
  let n := normalizedFields cfg
  (if n.host.truthy then [] else ["host"]) ++
  (if n.port.truthy then [] else ["port"]) ++
  (if n.id.truthy then [] else ["id"]) ++
  (if n.security ≠ .str "none" then
    (if n.sni.truthy then [] else ["sni"]) ++ (if n.fp.truthy then [] else ["fp"])
   else []) ++
  (if n.network = .str "ws" ∧ ¬ n.ws_path.truthy then ["path"] else []) ++
  (if n.network = .str "grpc" ∧ ¬ n.grpc_service_name.truthy then ["serviceName"] else [])

/-- Substring containment: `pat` occurs contiguously inside `s` (what the
Python `in` test on the diagnostic message observes). -/
def strContains (s pat : String) : Prop := pat.data <:+: s.data

instance (s pat : String) : Decidable (strContains s pat) :=
  inferInstanceAs (Decidable (pat.data <:+: s.data))

/-- Embedding of `", ".join(l)`. -/
def joinComma : List String → String
  | [] => ""
  | [s] => s
  | s :: rest => s ++ ", " ++ joinComma rest

/-- Embedding of Python `sorted(set(l))` for strings: the distinct elements in
lexicographic order. -/
def pySortedSet (l : List String) : List String :=
  l.dedup.mergeSort (fun a b => a ≤ b)

/-- The `ValueError` message raised for a non-empty `missing` list. -/
def vlessErrMsg (missing : List String) : String :=
  "required VLESS fields are missing: " ++ joinComma (pySortedSet missing)

/-- Embedding of `int(normalized["port"])`: an int passes through, a numeric
string parses, anything else raises (captured as the "port must be an
integer" `ValueError`). -/
def pyToInt : PyVal → Option ℤ
  | .int n => some n
  | .str s => s.toInt?
  | .none => Option.none

/-- Embedding of `XrayAdapter._normalize_vless_config` (xray_adapter.py lines
149-193).  `none` input models a metadata blob that is not a dict.  A
non-empty missing list raises one `ValueError` listing every missing field; a
port that cannot convert to int raises afterwards. -/
def normalize_vless_config (cfg : Option VlessDict) : Except String VlessNormalized :=
  match cfg with
  | Option.none => .error "Server.metadata_json is missing"
  | some cfg =>
      let n := normalizedFields cfg
      let missing := missingFields cfg
      if missing ≠ [] then .error (vlessErrMsg missing)
      else
        match pyToInt n.port with
        | some p => .ok { n with port := .int p }
        | Option.none => .error "port must be an integer"

/-- Embedding of `XrayAdapter.phase_c_http_check` (xray_adapter.py lines
34-65) up to the point where the external process would run: `enabled` and
`available` gate first; then a normalization failure is captured into the
result with the "phase_c_vless_config_error: " prefix.  The second component
records whether `_run_xray_check` (which spawns the xray process) was reached;
its result is the explicit `runResult` parameter. -/
def phase_c_http_check (enabled : Bool) (available : Bool)
    (cfg : Option VlessDict) (runResult : PhaseCResult) : PhaseCResult × Bool :=
  if enabled = false then
    (⟨false, available, false, Option.none, Option.none⟩, false)
  else if available = false then
    (⟨true, false, false, Option.none, some "xray binary is not available"⟩, false)
  else
    match normalize_vless_config cfg with
    | .error msg =>
        (⟨true, true, false, Option.none,
          some ("phase_c_vless_config_error: " ++ msg)⟩, false)
    | .ok _ => (runResult, true)

/-! ## Scan runner (app/services/scan_runner.py, ScanRunnerService._run_job)

The job record's `result` JSON is modelled as a key-value list in insertion
order, with Python's `{**existing, k: v}` merge as an update-or-append.  The
environment is explicit: `cancel i` is what `_is_cancelled` returns at the
checkpoint before the i-th server, `ext i` an external actor's status write
observed by the `db.refresh(job)` before the i-th server (`none` = unchanged),
and each server comes paired with what `scan_server` does for it — a persisted
check, or a raised exception with its `str(exc)` text. -/

/-- A value stored in the job-result dict. -/
inductive JVal where
  | int (n : ℤ)
  | str (s : String)
  | bool (b : Bool)
  | checkList (l : List (ℤ × ℤ × String))
deriving DecidableEq

/-- The job-result dict, insertion-ordered. -/
abbrev JDict := List (String × JVal)

/-- Python `{**d, k: v}`: replace the value in place when the key exists,
append otherwise. -/
def dictSet (d : JDict) (k : String) (v : JVal) : JDict :=
  if d.any (fun p => p.1 = k) then
    d.map (fun p => if p.1 = k then (k, v) else p)
  else d ++ [(k, v)]

/-- Iterated `dictSet`, for merges writing several keys. -/
def dictSets (d : JDict) (kvs : List (String × JVal)) : JDict :=
  kvs.foldl (fun d kv => dictSet d kv.1 kv.2) d

/-- The job-record fields `_run_job` mutates.  `result = none` models a job
whose `result` column is not a dict (the source then merges onto `{}`);
`finished` records that `finished_at` was written. -/
structure JobRec where
  status : String
  result : Option JDict
  finished : Bool
deriving DecidableEq

/-- An enabled server row: the only field the runner reads is its id. -/
structure ServerRec where
  id : ℤ
deriving DecidableEq

/-- What `scanner.scan_server` does for one server: returns a persisted check
(its id and status), or raises with the given `str(exc)` text. -/
inductive ScanEvent where
  | ok (checkId : ℤ) (status : String)
  | raise (msg : String)
deriving DecidableEq

/-- The `job.result` dict read by a merge: `{}` when it is not a dict. -/
def baseResult (job : JobRec) : JDict := job.result.getD []

/-- The per-server loop of `_run_job` (scan_runner.py lines 71-112) plus the
`except Exception` handler (lines 113-120).  `i` is the number of servers
processed so far, `checks` the accumulated check summaries in reverse.  Each
iteration refreshes the job (applying an external status write, if any),
honors cancellation or an externally changed status, then either processes the
server and persists progress, or — on a raised exception, with the job still
"running" — marks the job failed and REPLACES the whole result payload with
`{"error": str(exc)}`.  After the last server a final refresh guards the
"completed" transition. -/
def runJobLoop (cancel : ℕ → Bool) (ext : ℕ → Option String) (total : ℕ) :
    List (ServerRec × ScanEvent) → ℕ → JobRec → List (ℤ × ℤ × String) → JobRec
  | [], i, job, checks =>
      let st := (ext i).getD job.status
      if st = "running" then
        ⟨"completed",
         some (dictSets (baseResult { job with status := st })
           [("processed", .int i), ("total_servers", .int total),
            ("checks", .checkList checks.reverse), ("cancelled", .bool false)]),
         true⟩
      else { job with status := st }
  | (server, event) :: rest, i, job, checks =>
      let st := (ext i).getD job.status
      let job' : JobRec := { job with status := st }
      if cancel i ∨ st ≠ "running" then
        if st = "running" then
          ⟨"stopped",
           some (dictSets (baseResult job')
             [("processed", .int i), ("total_servers", .int total),
              ("checks", .checkList checks.reverse), ("cancelled", .bool true)]),
           true⟩
        else job'
      else
        match event with
        | .raise msg =>
            if st = "running" then ⟨"failed", some [("error", .str msg)], true⟩
            else job'
        | .ok checkId checkStatus =>
            let checks' := (server.id, checkId, checkStatus) :: checks
            let job'' : JobRec :=
              { job' with
                result := some (dictSets (baseResult job')
                  [("processed", .int (i + 1)), ("total_servers", .int total),
                   ("last_server_id", .int server.id)]) }
            runJobLoop cancel ext total rest (i + 1) job'' checks'

/-- Embedding of `ScanRunnerService._run_job` (scan_runner.py lines 50-124):
bail out unless the handed job is "running", write the initial progress merge
(`processed = 0`, `total_servers`), then run the loop.  The cancellation-flag
and active-marker bookkeeping of the `finally` block touches only the runner's
in-memory sets, not the job record, and is not modelled. -/
def run_job (cancel : ℕ → Bool) (ext : ℕ → Option String)
    (job : JobRec) (servers : List (ServerRec × ScanEvent)) : JobRec :=
  if job.status ≠ "running" then job
  else
    let total := servers.length
    let job1 : JobRec :=
      { job with
        result := some (dictSets (baseResult job)
          [("processed", .int 0), ("total_servers", .int total)]) }
    runJobLoop cancel ext total servers 0 job1 []

/-! ## Concrete inputs referenced by the theorems below -/

/-- The interleaved (status, latency) day of checks from the specification:
(ok, none), (fail, 120), (ok, none), (ok, 60), (fail, none), (ok, 90). -/
def c1Seq : List CheckRec :=
  [⟨true, none⟩, ⟨false, some 120⟩, ⟨true, none⟩,
   ⟨true, some 60⟩, ⟨false, none⟩, ⟨true, some 90⟩]

/-- An empty cooldown map: every host reads the default deadline 0. -/
def cdZero : Cooldown := fun _ => 0

/-- A network where every connect attempt is refused. -/
def allFailProbes : ℕ → ProbeOutcome := fun _ => .raise .connectionRefused

/-- A Phase-A result: reachable, resolved, connect RTT 25 ms. -/
def paSuccess25 : PhaseAResult := ⟨true, true, some "93.184.216.34", some 25, none, none⟩

/-- A Phase-B run against `allFailProbes`: one attempt, zero successes. -/
def pbAllFail : PhaseBResult :=
  (phase_b_multi_tcp cdZero 0 "example.com" allFailProbes 1 3 3 30).1

/-- Tunneling metadata for a web-socket transport with no path: host, port and
identity present, security "none". -/
def cfgWsNoPath : VlessDict :=
  { host := .str "example.com", port := .int 443, id := .str "11111111-1111",
    uuid := .none, user_id := .none, security := .str "none",
    network := .str "ws", type_ := .none, sni := .none, serverName := .none,
    fp := .none, flow := .none, path := .none, ws_host := .none,
    host_header := .none, serviceName := .none, query := none }

/-- Tunneling metadata for a gRPC transport with no service name. -/
def cfgGrpcNoService : VlessDict := { cfgWsNoPath with network := .str "grpc" }

/-- A job record carrying progress fields persisted by an earlier run. -/
def jobStale : JobRec :=
  ⟨"running", some [("processed", .int 9), ("total_servers", .int 12),
    ("last_server_id", .int 77)], false⟩

/-- Three enabled servers: the first scans fine, the second's scan raises. -/
def eventsFault : List (ServerRec × ScanEvent) :=
  [(⟨1⟩, .ok 100 "ok"), (⟨2⟩, .raise "boom"), (⟨3⟩, .ok 101 "ok")]

/-! ## Helper lemmas -/

/-- The sampling loop returns at most `acc.length + fuel` samples. -/
theorem phaseBLoop_length_le (probe : ℕ → TcpAttempt) (attempts : ℤ)
    (succThr failThr : ℕ) :
    ∀ (fuel idx sStreak fStreak : ℕ) (acc : List TcpAttempt),
      ((phaseBLoop probe attempts succThr failThr fuel idx sStreak fStreak acc).1).length ≤
        acc.length + fuel := by
  intro fuel
  induction fuel with
  | zero => intro idx s f acc; simp [phaseBLoop]
  | succ n ih =>
      intro idx s f acc
      rw [phaseBLoop]
      split
      · split
        · simp only [List.reverse_cons, List.length_append, List.length_reverse,
            List.length_cons, List.length_nil]
          omega
        · have h := ih (idx + 1) (s + 1) 0 (probe idx :: acc)
          simp only [List.length_cons] at h ⊢
          omega
      · split
        · simp only [List.reverse_cons, List.length_append, List.length_reverse,
            List.length_cons, List.length_nil]
          omega
        · have h := ih (idx + 1) 0 (f + 1) (probe idx :: acc)
          simp only [List.length_cons] at h ⊢
          omega

/-- A Phase-B result with zero successes reports success rate 0 (the rate is
`successes / attempts_made`, or 0 with no attempts). -/
theorem phase_b_rate_zero_of_successes_zero (cd : Cooldown) (now : ℚ) (host : String)
    (outcomes : ℕ → ProbeOutcome) (attempts : ℤ) (succThr failThr : ℕ) (cooldown_s : ℚ) :
    (phase_b_multi_tcp cd now host outcomes attempts succThr failThr cooldown_s).1.successes = 0 →
    (phase_b_multi_tcp cd now host outcomes attempts succThr failThr cooldown_s).1.success_rate = 0 := by
  by_cases hc : (in_cooldown cd now host).1 = true
  · intro _
    simp [phase_b_multi_tcp, hc]
  · simp only [phase_b_multi_tcp, if_neg hc, phaseBMainResult]
    intro h
    rw [h]
    split <;> simp

/-- A Phase-B call against a host currently in cooldown short-circuits. -/
theorem phase_b_shortcircuit (cd : Cooldown) (now : ℚ) (host : String)
    (outcomes : ℕ → ProbeOutcome) (attempts : ℤ) (succThr failThr : ℕ) (cooldown_s : ℚ)
    (h : (in_cooldown cd now host).1 = true) :
    phase_b_multi_tcp cd now host outcomes attempts succThr failThr cooldown_s =
      (⟨0, 0, 0, none, none, none, none, true, []⟩, (in_cooldown cd now host).2) := by
  unfold phase_b_multi_tcp
  rw [if_pos h]

/-- The result of a Phase-B call depends on the cooldown map only through the
probed host's own entry. -/
theorem phase_b_result_congr (cd1 cd2 : Cooldown) (now : ℚ) (host : String)
    (outcomes : ℕ → ProbeOutcome) (attempts : ℤ) (succThr failThr : ℕ) (cooldown_s : ℚ)
    (h : cd1 host = cd2 host) :
    (phase_b_multi_tcp cd1 now host outcomes attempts succThr failThr cooldown_s).1 =
      (phase_b_multi_tcp cd2 now host outcomes attempts succThr failThr cooldown_s).1 := by
  unfold phase_b_multi_tcp in_cooldown
  by_cases hc : cd2 host ≤ now
  · simp [h, hc]
  · simp [h, hc]

/-- The status field of the full-scan decision, unfolded. -/
theorem scan_server_full_status (pa : PhaseAResult) (pb : PhaseBResult) :
    (scan_server_full pa pb).status =
      if pa.success = true ∧ (0 < pb.successes ∨ 0 < pb.success_rate) then "ok" else "fail" := rfl

/-- The error-message field of the full-scan decision, unfolded. -/
theorem scan_server_full_error (pa : PhaseAResult) (pb : PhaseBResult) :
    (scan_server_full pa pb).error_message =
      if ((if pa.success = true ∧ (0 < pb.successes ∨ 0 < pb.success_rate) then "ok" else "fail") = "ok")
      then none
      else if pa.success = false then pa.error_message
      else some "phase_b_has_no_successful_probes" := rfl

/-! ## Claim theorems -/

/-- C1: the online daily-aggregate update does NOT agree with the offline
recomputation.  On the specification's own interleaved day of checks
(ok, none), (fail, 120), (ok, none), (ok, 60), (fail, none), (ok, 90), folding
through `_update_daily_aggregate` yields checks_total = 6 and
success_total = 4 as claimed, but avg_latency_ms = 102.5: the online formula
divides by `previous_checks_total + 1`, counting the latency-less checks in
the denominator.  The offline `recompute_daily_aggregate` — and the
repository's own test suite — give 90.0, the mean of 120, 60, 90. -/
theorem c1_online_aggregate_disagrees_with_recompute :
    fold_daily_online c1Seq = some ⟨6, 4, some (205 / 2)⟩ ∧
    recompute_daily_aggregate c1Seq = ⟨6, 4, some 90⟩ ∧
    (fold_daily_online c1Seq).map (fun a => a.avg_latency_ms) ≠
      some (recompute_daily_aggregate c1Seq).avg_latency_ms := by
  have h1 : fold_daily_online c1Seq = some ⟨6, 4, some (205 / 2)⟩ := by
    norm_num [fold_daily_online, c1Seq, update_daily_aggregate]
  have h2 : recompute_daily_aggregate c1Seq = ⟨6, 4, some 90⟩ := by
    norm_num [recompute_daily_aggregate, c1Seq, List.filterMap, List.sum]
  refine ⟨h1, h2, ?_⟩
  rw [h1, h2]
  norm_num

/-- C3: the classifier's mapping is exactly the claimed table — gaierror →
dns_fail, connection-refused → conn_refused, timeout exceptions and OSError
with errno 110 or 60 → timeout, everything else → unknown — but the
propagation half of the claim fails: `tcp_probe` and `phase_a_dns_tcp` wrap
their bodies in `except BaseException`, so a `KeyboardInterrupt` or
`SystemExit` raised inside a probe is caught, classified as "unknown" and
returned as an ordinary failed result instead of propagating (the repository's
own tests assert the opposite behavior). -/
theorem c3_classifier_table_but_probes_swallow_control_signals :
    classify_error .gaierror = .dns_fail ∧
    classify_error .connectionRefused = .conn_refused ∧
    classify_error .timeoutError = .timeout ∧
    classify_error .socketTimeout = .timeout ∧
    classify_error (.osError (some 110)) = .timeout ∧
    classify_error (.osError (some 60)) = .timeout ∧
    classify_error (.osError (some 111)) = .unknown ∧
    classify_error (.osError none) = .unknown ∧
    classify_error .runtimeError = .unknown ∧
    classify_error .keyboardInterrupt = .unknown ∧
    classify_error .systemExit = .unknown ∧
    tcp_probe (.raise .keyboardInterrupt) = ⟨false, none, some .unknown⟩ ∧
    phase_a_dns_tcp (.error (.systemExit, "2")) (.ok 1) =
      ⟨false, false, none, none, some .unknown, some "2"⟩ ∧
    phase_a_dns_tcp (.ok ["93.184.216.34"]) (.raise .keyboardInterrupt) =
      ⟨false, true, some "93.184.216.34", none, some .unknown, some "unknown"⟩ := by
  decide

/-- C2 counterexample: with Phase-A fully successful (rtt 25 ms) and a
Phase-B run with success_rate 0, the pipeline's status is "fail" but the
error message is the fixed string "phase_b_has_no_successful_probes", not
"no successful probes" as the claim states. -/
theorem c2_error_message_counterexample :
    paSuccess25.success = true ∧ paSuccess25.rtt_ms = some 25 ∧
    pbAllFail.success_rate = 0 ∧
    (scan_server_full paSuccess25 pbAllFail).status = "fail" ∧
    (scan_server_full paSuccess25 pbAllFail).error_message =
      some "phase_b_has_no_successful_probes" ∧
    (scan_server_full paSuccess25 pbAllFail).error_message ≠
      some "no successful probes" := by
  have hrate : pbAllFail.success_rate = 0 := by
    norm_num [pbAllFail, phase_b_multi_tcp, in_cooldown, cdZero, phaseBMainResult,
      phaseBLoop, allFailProbes, tcp_probe, classify_error, successRtts]
  have hsucc : pbAllFail.successes = 0 := by
    norm_num [pbAllFail, phase_b_multi_tcp, in_cooldown, cdZero, phaseBMainResult,
      phaseBLoop, allFailProbes, tcp_probe, classify_error, successRtts]
  have hcond : ¬ (paSuccess25.success = true ∧
      (0 < pbAllFail.successes ∨ 0 < pbAllFail.success_rate)) := by
    rintro ⟨-, h | h⟩
    · omega
    · rw [hrate] at h; exact absurd h (lt_irrefl 0)
  refine ⟨rfl, rfl, hrate, ?_, ?_, ?_⟩
  · rw [scan_server_full_status, if_neg hcond]
  · rw [scan_server_full_error, if_neg hcond, if_neg (by decide : ¬ ("fail" = "ok")),
      if_neg (by decide : ¬ (paSuccess25.success = false))]
  · rw [scan_server_full_error, if_neg hcond, if_neg (by decide : ¬ ("fail" = "ok")),
      if_neg (by decide : ¬ (paSuccess25.success = false))]
    decide

/-- C2 (amended): for every full-scan pipeline run, the persisted status is
"ok" iff Phase-A succeeded and Phase-B recorded at least one success;
otherwise it is "fail" with error_message equal to Phase-A's message when
Phase-A failed, and exactly the fixed string
"phase_b_has_no_successful_probes" otherwise. -/
theorem c2_full_scan_status_and_error (pa : PhaseAResult) (cd : Cooldown)
    (now : ℚ) (host : String) (outcomes : ℕ → ProbeOutcome) (attempts : ℤ)
    (succThr failThr : ℕ) (cooldown_s : ℚ) :
    ((scan_server_full pa
        (phase_b_multi_tcp cd now host outcomes attempts succThr failThr cooldown_s).1).status = "ok" ↔
      pa.success = true ∧
        0 < (phase_b_multi_tcp cd now host outcomes attempts succThr failThr cooldown_s).1.successes) ∧
    (pa.success = false →
      (scan_server_full pa
        (phase_b_multi_tcp cd now host outcomes attempts succThr failThr cooldown_s).1).status = "fail" ∧
      (scan_server_full pa
        (phase_b_multi_tcp cd now host outcomes attempts succThr failThr cooldown_s).1).error_message =
        pa.error_message) ∧
    (pa.success = true →
      (phase_b_multi_tcp cd now host outcomes attempts succThr failThr cooldown_s).1.successes = 0 →
      (scan_server_full pa
        (phase_b_multi_tcp cd now host outcomes attempts succThr failThr cooldown_s).1).status = "fail" ∧
      (scan_server_full pa
        (phase_b_multi_tcp cd now host outcomes attempts succThr failThr cooldown_s).1).error_message =
        some "phase_b_has_no_successful_probes") := by
  have hzero := phase_b_rate_zero_of_successes_zero cd now host outcomes attempts succThr failThr cooldown_s
  set pb := (phase_b_multi_tcp cd now host outcomes attempts succThr failThr cooldown_s).1 with hpb
  have hsucc : (0 < pb.successes ∨ 0 < pb.success_rate) ↔ 0 < pb.successes := by
    constructor
    · rintro (h | h)
      · exact h
      · by_contra hn
        have h0 : pb.successes = 0 := by omega
        rw [hzero h0] at h
        exact absurd h (lt_irrefl 0)
    · exact Or.inl
  refine ⟨?_, ?_, ?_⟩
  · rw [scan_server_full_status]
    by_cases hC : pa.success = true ∧ (0 < pb.successes ∨ 0 < pb.success_rate)
    · rw [if_pos hC]
      exact ⟨fun _ => ⟨hC.1, hsucc.mp hC.2⟩, fun _ => rfl⟩
    · rw [if_neg hC]
      rw [hsucc] at hC
      exact ⟨fun h => absurd h (by decide), fun h => absurd h hC⟩
  · intro hA
    have hC : ¬ (pa.success = true ∧ (0 < pb.successes ∨ 0 < pb.success_rate)) := by
      rintro ⟨h, -⟩; rw [hA] at h; exact Bool.false_ne_true h
    constructor
    · rw [scan_server_full_status, if_neg hC]
    · rw [scan_server_full_error, if_neg hC, if_neg (by decide : ¬ ("fail" = "ok")),
        if_pos hA]
  · intro hA h0
    have hC : ¬ (pa.success = true ∧ (0 < pb.successes ∨ 0 < pb.success_rate)) := by
      rintro ⟨-, hor⟩
      rw [hsucc] at hor
      omega
    constructor
    · rw [scan_server_full_status, if_neg hC]
    · rw [scan_server_full_error, if_neg hC, if_neg (by decide : ¬ ("fail" = "ok")),
        if_neg (by simp [hA] : ¬ (pa.success = false))]

/-- C4: when a Phase-B run for host H that was not short-circuited ends with
zero successes, H's cooldown entry is set to the call instant plus the
cooldown duration; a subsequent Phase-B call for the same H within that window
short-circuits with zero attempts, success_rate 0, empty samples and
`stopped_early = true`; and a call for any different host H' returns exactly
what it would have returned against the pre-run cooldown map. -/
theorem c4_cooldown_blocks_same_host_only (cd : Cooldown) (t1 t2 : ℚ) (H H' : String)
    (o1 o2 o3 : ℕ → ProbeOutcome) (a1 a2 a3 : ℤ)
    (sT1 fT1 sT2 fT2 sT3 fT3 : ℕ) (cs1 cs2 cs3 : ℚ)
    (hfree : cd H ≤ t1)
    (hzero : (phase_b_multi_tcp cd t1 H o1 a1 sT1 fT1 cs1).1.successes = 0)
    (hwin : t2 < t1 + max 0 cs1)
    (hne : H' ≠ H) :
    (phase_b_multi_tcp cd t1 H o1 a1 sT1 fT1 cs1).2 H = t1 + max 0 cs1 ∧
    (phase_b_multi_tcp ((phase_b_multi_tcp cd t1 H o1 a1 sT1 fT1 cs1).2)
        t2 H o2 a2 sT2 fT2 cs2).1 =
      ⟨0, 0, 0, none, none, none, none, true, []⟩ ∧
    (phase_b_multi_tcp ((phase_b_multi_tcp cd t1 H o1 a1 sT1 fT1 cs1).2)
        t2 H' o3 a3 sT3 fT3 cs3).1 =
      (phase_b_multi_tcp cd t2 H' o3 a3 sT3 fT3 cs3).1 := by
  have hc1 : (in_cooldown cd t1 H).1 = false := by simp [in_cooldown, hfree]
  have hpair : phase_b_multi_tcp cd t1 H o1 a1 sT1 fT1 cs1 =
      (phaseBMainResult o1 a1 sT1 fT1,
       if (phaseBMainResult o1 a1 sT1 fT1).successes = 0 then
         set_cooldown (in_cooldown cd t1 H).2 t1 H cs1
       else (in_cooldown cd t1 H).2) := by
    simp [phase_b_multi_tcp, hc1]
  have hzero0 : (phaseBMainResult o1 a1 sT1 fT1).successes = 0 := by
    rw [hpair] at hzero
    exact hzero
  have hcd2 : (phase_b_multi_tcp cd t1 H o1 a1 sT1 fT1 cs1).2 =
      set_cooldown (in_cooldown cd t1 H).2 t1 H cs1 := by
    rw [hpair, if_pos hzero0]
  have hHval : (phase_b_multi_tcp cd t1 H o1 a1 sT1 fT1 cs1).2 H = t1 + max 0 cs1 := by
    rw [hcd2]
    simp [set_cooldown]
  refine ⟨hHval, ?_, ?_⟩
  · have hnotle : ¬ ((phase_b_multi_tcp cd t1 H o1 a1 sT1 fT1 cs1).2 H ≤ t2) := by
      rw [hHval]
      exact not_le.mpr hwin
    have hcc : (in_cooldown ((phase_b_multi_tcp cd t1 H o1 a1 sT1 fT1 cs1).2) t2 H).1 = true := by
      unfold in_cooldown
      rw [if_neg hnotle]
    rw [phase_b_shortcircuit _ _ _ o2 a2 sT2 fT2 cs2 hcc]
  · have hHother : (phase_b_multi_tcp cd t1 H o1 a1 sT1 fT1 cs1).2 H' = cd H' := by
      rw [hcd2]
      simp [set_cooldown, in_cooldown, hfree, hne]
    exact phase_b_result_congr _ _ t2 H' o3 a3 sT3 fT3 cs3 hHother

/-- C4 witness: a concrete all-failure run for host "a" at time 0 places "a"
into the default 30-second cooldown; the calls at time 1 behave as the theorem
states. -/
theorem c4_cooldown_witness :
    cdZero "a" ≤ (0 : ℚ) ∧
    (phase_b_multi_tcp cdZero 0 "a" allFailProbes 1 3 3 30).1.successes = 0 ∧
    (1 : ℚ) < 0 + max 0 30 ∧
    ("b" : String) ≠ "a" ∧
    ((phase_b_multi_tcp cdZero 0 "a" allFailProbes 1 3 3 30).2 "a" = 0 + max 0 30 ∧
     (phase_b_multi_tcp ((phase_b_multi_tcp cdZero 0 "a" allFailProbes 1 3 3 30).2)
         1 "a" allFailProbes 5 3 3 30).1 =
       ⟨0, 0, 0, none, none, none, none, true, []⟩ ∧
     (phase_b_multi_tcp ((phase_b_multi_tcp cdZero 0 "a" allFailProbes 1 3 3 30).2)
         1 "b" allFailProbes 5 3 3 30).1 =
       (phase_b_multi_tcp cdZero 1 "b" allFailProbes 5 3 3 30).1) := by
  have h1 : cdZero "a" ≤ (0 : ℚ) := by norm_num [cdZero]
  have h2 : (phase_b_multi_tcp cdZero 0 "a" allFailProbes 1 3 3 30).1.successes = 0 := by
    norm_num [phase_b_multi_tcp, in_cooldown, cdZero, phaseBMainResult, phaseBLoop,
      allFailProbes, tcp_probe, classify_error, successRtts]
  have h3 : (1 : ℚ) < 0 + max 0 30 := by norm_num
  have h4 : ("b" : String) ≠ "a" := by decide
  exact ⟨h1, h2, h3, h4,
    c4_cooldown_blocks_same_host_only cdZero 0 1 "a" "b" allFailProbes allFailProbes
      allFailProbes 1 5 5 3 3 3 3 3 3 30 30 30 h1 h2 h3 h4⟩

/-- C5 counterexample: the claim quantifies over every requested attempt
budget, but the loop runs `range(max(1, attempts))`, so a call with
`attempts = 0` (not short-circuited by cooldown) still makes one attempt —
attempts made exceeds the requested budget. -/
theorem c5_attempts_budget_counterexample :
    cdZero "example.net" ≤ (0 : ℚ) ∧
    (phase_b_multi_tcp cdZero 0 "example.net" allFailProbes 0 3 3 30).1.attempts = 1 ∧
    ¬ (((phase_b_multi_tcp cdZero 0 "example.net" allFailProbes 0 3 3 30).1.attempts : ℤ) ≤ 0) := by
  have h1 : (phase_b_multi_tcp cdZero 0 "example.net" allFailProbes 0 3 3 30).1.attempts = 1 := by
    norm_num [phase_b_multi_tcp, in_cooldown, cdZero, phaseBMainResult, phaseBLoop,
      allFailProbes, tcp_probe, classify_error, successRtts]
  refine ⟨by norm_num [cdZero], h1, ?_⟩
  rw [h1]
  decide

/-- C5 (amended): for every Phase-B call with requested budget `attempts ≥ 1`
that is not short-circuited by cooldown, attempts made ≤ requested attempts,
successes ≤ attempts made, jitter_ms is absent exactly when fewer than two
successful samples exist, and otherwise jitter_ms is the mean of absolute
differences between consecutive successful RTTs in sample order. -/
theorem c5_phase_b_bounds_and_jitter (cd : Cooldown) (now : ℚ) (host : String)
    (outcomes : ℕ → ProbeOutcome) (attempts : ℤ) (succThr failThr : ℕ) (cooldown_s : ℚ)
    (hfree : cd host ≤ now) (ha : 1 ≤ attempts) :
    ((phase_b_multi_tcp cd now host outcomes attempts succThr failThr cooldown_s).1.attempts : ℤ) ≤ attempts ∧
    (phase_b_multi_tcp cd now host outcomes attempts succThr failThr cooldown_s).1.successes ≤
      (phase_b_multi_tcp cd now host outcomes attempts succThr failThr cooldown_s).1.attempts ∧
    ((phase_b_multi_tcp cd now host outcomes attempts succThr failThr cooldown_s).1.jitter_ms = none ↔
      (phase_b_multi_tcp cd now host outcomes attempts succThr failThr cooldown_s).1.successes < 2) ∧
    (2 ≤ (phase_b_multi_tcp cd now host outcomes attempts succThr failThr cooldown_s).1.successes →
      (phase_b_multi_tcp cd now host outcomes attempts succThr failThr cooldown_s).1.jitter_ms =
        some ((absDeltas (successRtts
            (phase_b_multi_tcp cd now host outcomes attempts succThr failThr cooldown_s).1.samples)).sum /
          ((absDeltas (successRtts
            (phase_b_multi_tcp cd now host outcomes attempts succThr failThr cooldown_s).1.samples)).length : ℚ))) := by
  have hc1 : (in_cooldown cd now host).1 = false := by simp [in_cooldown, hfree]
  have hpair : (phase_b_multi_tcp cd now host outcomes attempts succThr failThr cooldown_s).1 =
      phaseBMainResult outcomes attempts succThr failThr := by
    simp [phase_b_multi_tcp, hc1]
  rw [hpair]
  simp only [phaseBMainResult]
  refine ⟨?_, ?_, ?_, ?_⟩
  · have hlen := phaseBLoop_length_le (fun i => tcp_probe (outcomes i)) attempts
      succThr failThr (max 1 attempts).toNat 0 0 0 []
    simp only [List.length_nil] at hlen
    omega
  · exact List.length_filterMap_le _ _
  · split
    · simp
      omega
    · simp
      omega
  · intro h2
    rw [if_pos h2]

/-- C5 witness: a three-attempt all-failure run at a free host satisfies the
attempts bound, the successes bound and the jitter-absence condition. -/
theorem c5_phase_b_bounds_witness :
    cdZero "w.example" ≤ (0 : ℚ) ∧ (1 : ℤ) ≤ 3 ∧
    (((phase_b_multi_tcp cdZero 0 "w.example" allFailProbes 3 3 3 30).1.attempts : ℤ) ≤ 3 ∧
     (phase_b_multi_tcp cdZero 0 "w.example" allFailProbes 3 3 3 30).1.successes ≤
       (phase_b_multi_tcp cdZero 0 "w.example" allFailProbes 3 3 3 30).1.attempts ∧
     ((phase_b_multi_tcp cdZero 0 "w.example" allFailProbes 3 3 3 30).1.jitter_ms = none ↔
       (phase_b_multi_tcp cdZero 0 "w.example" allFailProbes 3 3 3 30).1.successes < 2) ∧
     (2 ≤ (phase_b_multi_tcp cdZero 0 "w.example" allFailProbes 3 3 3 30).1.successes →
       (phase_b_multi_tcp cdZero 0 "w.example" allFailProbes 3 3 3 30).1.jitter_ms =
         some ((absDeltas (successRtts
             (phase_b_multi_tcp cdZero 0 "w.example" allFailProbes 3 3 3 30).1.samples)).sum /
           ((absDeltas (successRtts
             (phase_b_multi_tcp cdZero 0 "w.example" allFailProbes 3 3 3 30).1.samples)).length : ℚ)))) :=
  ⟨by norm_num [cdZero], by norm_num,
   c5_phase_b_bounds_and_jitter cdZero 0 "w.example" allFailProbes 3 3 3 30
     (by norm_num [cdZero]) (by norm_num)⟩

/-- C6: with at least one historical check and all other `ConfidenceInput`
fields held fixed, the confidence is non-decreasing in the success ratio
(success_count / total_count, so non-decreasing in success_count) and
non-increasing in the measurement age (now − last_checked_at, so
non-increasing in now with last_checked_at fixed). -/
theorem c6_confidence_monotone (sc1 sc2 tc : ℤ) (j lc : Option ℝ)
    (now t now1 now2 hl : ℝ)
    (htc : 1 ≤ tc) (hsc : sc1 ≤ sc2) (hage : now1 ≤ now2) :
    (calculate_confidence ⟨sc1, tc, j, lc, now⟩ hl).confidence ≤
      (calculate_confidence ⟨sc2, tc, j, lc, now⟩ hl).confidence ∧
    (calculate_confidence ⟨sc1, tc, j, some t, now2⟩ hl).confidence ≤
      (calculate_confidence ⟨sc1, tc, j, some t, now1⟩ hl).confidence := by
  have hne : ¬ (tc ≤ 0) := by omega
  have hpos : (0 : ℝ) < (tc : ℝ) := by exact_mod_cast (by omega : (0 : ℤ) < tc)
  constructor
  · simp only [calculate_confidence, if_neg hne]
    have hsr : confSuccessRatio ⟨sc1, tc, j, lc, now⟩ ≤ confSuccessRatio ⟨sc2, tc, j, lc, now⟩ := by
      unfold confSuccessRatio
      exact (div_le_div_iff_of_pos_right hpos).mpr (by exact_mod_cast hsc)
    have hvol : confVolume ⟨sc1, tc, j, lc, now⟩ = confVolume ⟨sc2, tc, j, lc, now⟩ := rfl
    have hst : confStability ⟨sc1, tc, j, lc, now⟩ = confStability ⟨sc2, tc, j, lc, now⟩ := rfl
    have hrec : confRecency ⟨sc1, tc, j, lc, now⟩ hl = confRecency ⟨sc2, tc, j, lc, now⟩ hl := rfl
    rw [hvol, hst, hrec]
    exact max_le_max le_rfl (min_le_min le_rfl (by linarith))
  · simp only [calculate_confidence, if_neg hne]
    have hrec : confRecency ⟨sc1, tc, j, some t, now2⟩ hl ≤
        confRecency ⟨sc1, tc, j, some t, now1⟩ hl := by
      unfold confRecency
      simp only
      apply Real.rpow_le_rpow_of_exponent_ge (by norm_num) (by norm_num)
      have hc : (0 : ℝ) < max hl 0.01 := lt_max_of_lt_right (by norm_num)
      apply (div_le_div_iff_of_pos_right hc).mpr
      exact max_le_max le_rfl
        ((div_le_div_iff_of_pos_right (by norm_num : (0 : ℝ) < 3600)).mpr (by linarith))
    have hsr : confSuccessRatio ⟨sc1, tc, j, some t, now2⟩ =
        confSuccessRatio ⟨sc1, tc, j, some t, now1⟩ := rfl
    have hvol : confVolume ⟨sc1, tc, j, some t, now2⟩ =
        confVolume ⟨sc1, tc, j, some t, now1⟩ := rfl
    have hst : confStability ⟨sc1, tc, j, some t, now2⟩ =
        confStability ⟨sc1, tc, j, some t, now1⟩ := rfl
    rw [hsr, hvol, hst]
    exact max_le_max le_rfl (min_le_min le_rfl (by linarith))

/-- C6 witness: confidence at 1 of 2 successes is at most confidence at 2 of 2
successes, and confidence one hour after the last check is at most confidence
at the instant of the last check. -/
theorem c6_confidence_monotone_witness :
    (1 : ℤ) ≤ 2 ∧ (1 : ℤ) ≤ 2 ∧ (0 : ℝ) ≤ 3600 ∧
    ((calculate_confidence ⟨1, 2, none, none, 0⟩ 24).confidence ≤
       (calculate_confidence ⟨2, 2, none, none, 0⟩ 24).confidence ∧
     (calculate_confidence ⟨1, 2, none, some 0, 3600⟩ 24).confidence ≤
       (calculate_confidence ⟨1, 2, none, some 0, 0⟩ 24).confidence) := by
  refine ⟨by norm_num, by norm_num, by norm_num, ?_⟩
  exact c6_confidence_monotone 1 2 2 none none 0 0 0 3600 24
    (by norm_num) (by norm_num) (by norm_num)

/-- C7: for every scoring input, the total is the clamp of
availability + latency + stability − penalty to [0, 100] (hence always within
[0, 100]); the availability component is the banker's rounding of the clamped
success rate times 50 (and of the raw success rate times 50 whenever that rate
is already within [0, 1]); the latency component follows the banded table; the
stability component follows the jitter formula with the success-rate fallback;
and the error penalty follows the penalty table. -/
theorem c7_explainable_score_spec (success_rate : ℚ)
    (median_latency_ms jitter_ms : Option ℚ) (last_error : Option ErrorType) :
    (explainable_score success_rate median_latency_ms jitter_ms last_error).total =
      max 0 (min 100
        ((explainable_score success_rate median_latency_ms jitter_ms last_error).availability_component +
         (explainable_score success_rate median_latency_ms jitter_ms last_error).latency_component +
         (explainable_score success_rate median_latency_ms jitter_ms last_error).stability_component -
         (explainable_score success_rate median_latency_ms jitter_ms last_error).error_penalty)) ∧
    0 ≤ (explainable_score success_rate median_latency_ms jitter_ms last_error).total ∧
    (explainable_score success_rate median_latency_ms jitter_ms last_error).total ≤ 100 ∧
    (explainable_score success_rate median_latency_ms jitter_ms last_error).availability_component =
      pyRound (max 0 (min 1 success_rate) * 50) ∧
    (0 ≤ success_rate → success_rate ≤ 1 →
      (explainable_score success_rate median_latency_ms jitter_ms last_error).availability_component =
        pyRound (success_rate * 50)) ∧
    (explainable_score success_rate median_latency_ms jitter_ms last_error).latency_component =
      (match median_latency_ms with
       | none => 0
       | some l =>
           if l ≤ 60 then 30 else if l ≤ 120 then 24
           else if l ≤ 250 then 16 else if l ≤ 500 then 8 else 2) ∧
    (explainable_score success_rate median_latency_ms jitter_ms last_error).stability_component =
      (match jitter_ms with
       | none => if 0 < success_rate then 10 else 0
       | some jv => max 0 (20 - pyRound (min jv 200 / 10))) ∧
    (explainable_score success_rate median_latency_ms jitter_ms last_error).error_penalty =
      (match last_error with
       | none => 0
       | some .dns_fail => 45
       | some .conn_refused => 30
       | some .timeout => 35
       | some .unknown => 20) := by
  refine ⟨rfl, ?_, ?_, rfl, ?_, rfl, rfl, ?_⟩
  · exact le_max_left _ _
  · exact max_le (by norm_num) (min_le_left _ _)
  · intro h0 h1
    show pyRound (max 0 (min 1 success_rate) * 50) = pyRound (success_rate * 50)
    rw [min_eq_right h1, max_eq_right h0]
  · cases last_error with
    | none => rfl
    | some e => cases e <;> rfl

/-- C7 witness: the score decomposition at a concrete input — success rate
1/2, median latency 100 ms, unknown jitter, last error timeout. -/
theorem c7_explainable_score_witness :
    (0 : ℚ) ≤ 1 / 2 ∧ (1 / 2 : ℚ) ≤ 1 ∧
    (explainable_score (1 / 2) (some 100) none (some .timeout)).availability_component =
      pyRound ((1 / 2) * 50) := by
  refine ⟨by norm_num, by norm_num, ?_⟩
  exact (c7_explainable_score_spec (1 / 2) (some 100) none (some .timeout)).2.2.2.2.1
    (by norm_num) (by norm_num)

/-- C8 counterexample: at total_count = 0 the confidence is 0 and the volume,
stability and recency components are 0 as claimed, but the components dict has
NO "success_ratio" entry at all — so the success_ratio component is not 0, it
is absent. -/
theorem c8_zero_history_counterexample :
    (calculate_confidence ⟨0, 0, none, none, 0⟩ 24).confidence = 0 ∧
    (calculate_confidence ⟨0, 0, none, none, 0⟩ 24).components =
      [("volume", 0), ("stability", 0), ("recency", 0)] ∧
    (calculate_confidence ⟨0, 0, none, none, 0⟩ 24).components.lookup "success_ratio" = none ∧
    ¬ ((calculate_confidence ⟨0, 0, none, none, 0⟩ 24).components.lookup "success_ratio" =
        some 0) := by
  have hzero : calculate_confidence ⟨0, 0, none, none, 0⟩ 24 =
      ⟨0, [("volume", 0), ("stability", 0), ("recency", 0)]⟩ := by
    unfold calculate_confidence
    rw [if_pos (by norm_num)]
  refine ⟨by rw [hzero], by rw [hzero], ?_, ?_⟩
  · rw [hzero]
    rfl
  · rw [hzero]
    intro h
    simp [List.lookup] at h
/-- C8 (amended): for every input with total_count = 0, the confidence is 0
and the returned components dict is exactly
[volume ↦ 0, stability ↦ 0, recency ↦ 0]: every component present is 0, and
the success_ratio key is omitted in this branch. -/
theorem c8_zero_history_components (metrics : ConfidenceInput) (hl : ℝ)
    (h : metrics.total_count = 0) :
    calculate_confidence metrics hl =
      ⟨0, [("volume", 0), ("stability", 0), ("recency", 0)]⟩ := by
  unfold calculate_confidence
  rw [if_pos (by omega)]

/-- C8 witness: the zero-history input ⟨0, 0, none, none, 0⟩ hits the
amended theorem. -/
theorem c8_zero_history_witness :
    (⟨0, 0, none, none, 0⟩ : ConfidenceInput).total_count = 0 ∧
    calculate_confidence ⟨0, 0, none, none, 0⟩ 12 =
      ⟨0, [("volume", 0), ("stability", 0), ("recency", 0)]⟩ :=
  ⟨rfl, c8_zero_history_components ⟨0, 0, none, none, 0⟩ 12 rfl⟩

/-- Sorting the distinct elements preserves membership. -/
theorem mem_pySortedSet {x : String} {l : List String} (h : x ∈ l) : x ∈ pySortedSet l := by
  unfold pySortedSet
  rw [List.mem_mergeSort]
  exact List.mem_dedup.mpr h

/-- Every element of the list occurs contiguously in its comma join. -/
theorem infix_joinComma {x : String} :
    ∀ {l : List String}, x ∈ l → x.data <:+: (joinComma l).data := by
  intro l
  induction l with
  | nil => intro h; exact absurd h (List.not_mem_nil x)
  | cons a rest ih =>
      intro h
      cases rest with
      | nil =>
          have hx : x = a := by simpa using h
          subst hx
          exact List.infix_refl _
      | cons b rest2 =>
          have hjc : joinComma (a :: b :: rest2) = a ++ ", " ++ joinComma (b :: rest2) := rfl
          rw [hjc]
          rcases List.mem_cons.mp h with hx | hmem
          · subst hx
            refine ⟨[], (", ").data ++ (joinComma (b :: rest2)).data, ?_⟩
            simp [String.data_append, List.append_assoc]
          · obtain ⟨u, v, huv⟩ := ih hmem
            refine ⟨(a ++ ", ").data ++ u, v, ?_⟩
            rw [String.data_append, String.data_append]
            simp only [List.append_assoc]
            rw [← huv]
            simp [List.append_assoc]

/-- Every missing field occurs verbatim inside the diagnostic message. -/
theorem strContains_vlessErrMsg {x : String} {l : List String} (h : x ∈ l) :
    strContains (vlessErrMsg l) x := by
  unfold vlessErrMsg strContains
  obtain ⟨u, v, huv⟩ := infix_joinComma (mem_pySortedSet h)
  refine ⟨("required VLESS fields are missing: ").data ++ u, v, ?_⟩
  rw [String.data_append]
  simp only [List.append_assoc]
  rw [← huv]
  simp [List.append_assoc]

/-- The missing list is empty exactly when every conditional requirement of
the normalizer is met. -/
theorem missingFields_nil_iff (cfg : VlessDict) :
    missingFields cfg = [] ↔
      ((normalizedFields cfg).host.truthy = true ∧
       (normalizedFields cfg).port.truthy = true ∧
       (normalizedFields cfg).id.truthy = true ∧
       ((normalizedFields cfg).security ≠ .str "none" →
         (normalizedFields cfg).sni.truthy = true ∧
         (normalizedFields cfg).fp.truthy = true) ∧
       ((normalizedFields cfg).network = .str "ws" →
         (normalizedFields cfg).ws_path.truthy = true) ∧
       ((normalizedFields cfg).network = .str "grpc" →
         (normalizedFields cfg).grpc_service_name.truthy = true)) := by
  simp only [missingFields]
  split_ifs <;> simp_all

/-- C9: tunneling-metadata normalization requires host, port and identity;
with a non-"none" security mode it additionally requires the SNI and the
fingerprint; a web-socket transport requires a path and a gRPC transport a
service name, while security "none" imposes no SNI/fingerprint/flow
requirement; every violation produces a single ValueError whose message lists
every missing field ("path" for a ws transport missing its path,
"serviceName" for gRPC missing its service name); and `phase_c_http_check`
captures that message into the `PhaseCResult` without reaching the
process-spawning step. -/
theorem c9_vless_validation (cfg : VlessDict) :
    (missingFields cfg ≠ [] →
      normalize_vless_config (some cfg) = .error (vlessErrMsg (missingFields cfg)) ∧
      ∀ f ∈ missingFields cfg, strContains (vlessErrMsg (missingFields cfg)) f) ∧
    ((normalizedFields cfg).network = .str "ws" →
      (normalizedFields cfg).ws_path.truthy = false → "path" ∈ missingFields cfg) ∧
    ((normalizedFields cfg).network = .str "grpc" →
      (normalizedFields cfg).grpc_service_name.truthy = false →
      "serviceName" ∈ missingFields cfg) ∧
    (∀ r, normalize_vless_config (some cfg) = .ok r →
      (normalizedFields cfg).host.truthy = true ∧
      (normalizedFields cfg).port.truthy = true ∧
      (normalizedFields cfg).id.truthy = true ∧
      ((normalizedFields cfg).security ≠ .str "none" →
        (normalizedFields cfg).sni.truthy = true ∧
        (normalizedFields cfg).fp.truthy = true) ∧
      ((normalizedFields cfg).network = .str "ws" →
        (normalizedFields cfg).ws_path.truthy = true) ∧
      ((normalizedFields cfg).network = .str "grpc" →
        (normalizedFields cfg).grpc_service_name.truthy = true)) ∧
    ((normalizedFields cfg).security = .str "none" →
      "sni" ∉ missingFields cfg ∧ "fp" ∉ missingFields cfg ∧
      "flow" ∉ missingFields cfg) ∧
    (∀ msg runResult, normalize_vless_config (some cfg) = .error msg →
      phase_c_http_check true true (some cfg) runResult =
        (⟨true, true, false, none, some ("phase_c_vless_config_error: " ++ msg)⟩, false)) := by
  refine ⟨?_, ?_, ?_, ?_, ?_, ?_⟩
  · intro hm
    constructor
    · simp only [normalize_vless_config]
      rw [if_pos hm]
    · intro f hf
      exact strContains_vlessErrMsg hf
  · intro hw hp
    unfold missingFields
    simp [hw, hp]
  · intro hg hs
    unfold missingFields
    simp [hg, hs]
  · intro r hr
    by_cases hm : missingFields cfg = []
    · exact (missingFields_nil_iff cfg).mp hm
    · exfalso
      simp only [normalize_vless_config] at hr
      rw [if_pos hm] at hr
      exact Except.noConfusion hr
  · intro hs
    refine ⟨?_, ?_, ?_⟩ <;>
      · intro hmem
        simp only [missingFields, List.mem_append] at hmem
        rcases hmem with ((((h | h) | h) | h) | h) | h
        · split at h <;> simp_all
        · split at h <;> simp_all
        · split at h <;> simp_all
        · rw [if_neg (by simp [hs])] at h
          exact absurd h (List.not_mem_nil _)
        · split at h <;> simp_all
        · split at h <;> simp_all
  · intro msg runResult hr
    simp [phase_c_http_check, hr]

/-- C9 witness: concrete metadata — a ws transport with no path fails with a
message containing "path", and a gRPC transport with no service name records
"serviceName" as missing. -/
theorem c9_vless_validation_witness :
    missingFields cfgWsNoPath ≠ [] ∧
    (normalizedFields cfgWsNoPath).network = .str "ws" ∧
    (normalizedFields cfgWsNoPath).ws_path.truthy = false ∧
    "path" ∈ missingFields cfgWsNoPath ∧
    strContains (vlessErrMsg (missingFields cfgWsNoPath)) "path" ∧
    (normalizedFields cfgGrpcNoService).network = .str "grpc" ∧
    "serviceName" ∈ missingFields cfgGrpcNoService := by
  have h := c9_vless_validation cfgWsNoPath
  have hg := c9_vless_validation cfgGrpcNoService
  have hm : missingFields cfgWsNoPath ≠ [] := by decide
  refine ⟨hm, by decide, by decide, ?_, ?_, by decide, ?_⟩
  · exact h.2.1 (by decide) (by decide)
  · exact (h.1 hm).2 "path" (h.2.1 (by decide) (by decide))
  · exact hg.2.2.1 (by decide) (by decide)

/-- Running the loop into a raising server after a clean prefix of successful
scans ends with the job failed and the result replaced by the error dict. -/
theorem runJobLoop_fault (cancel : ℕ → Bool) (ext : ℕ → Option String) (total : ℕ)
    (server : ServerRec) (msg : String) (rest : List (ServerRec × ScanEvent)) :
    ∀ (pre : List (ServerRec × ScanEvent)) (i : ℕ) (job : JobRec)
      (checks : List (ℤ × ℤ × String)),
      job.status = "running" →
      (∀ k ≤ pre.length, cancel (i + k) = false) →
      (∀ k ≤ pre.length, ext (i + k) = none) →
      (∀ p ∈ pre, ∃ cid st, p.2 = ScanEvent.ok cid st) →
      runJobLoop cancel ext total (pre ++ (server, .raise msg) :: rest) i job checks =
        ⟨"failed", some [("error", .str msg)], true⟩ := by
  intro pre
  induction pre with
  | nil =>
      intro i job checks hrun hc he _
      have hei : ext i = none := he 0 (by simp)
      have hci : cancel i = false := hc 0 (by simp)
      simp only [List.nil_append, runJobLoop, hei, Option.getD_none, hrun, hci]
      simp [hrun]
  | cons p pre ih =>
      intro i job checks hrun hc he hok
      obtain ⟨cid, st, hp⟩ := hok p (by simp)
      have hei : ext i = none := he 0 (by simp)
      have hci : cancel i = false := hc 0 (by simp)
      obtain ⟨server0, ev0⟩ := p
      simp only at hp
      subst hp
      simp only [List.cons_append, runJobLoop, hei, Option.getD_none, hrun, hci]
      rw [if_neg (by simp [hrun])]
      exact ih (i + 1) _ _ (by simp [hrun])
        (fun k hk => by
          rw [show i + 1 + k = i + (k + 1) from by omega]
          exact hc (k + 1) (by simp; omega))
        (fun k hk => by
          rw [show i + 1 + k = i + (k + 1) from by omega]
          exact he (k + 1) (by simp; omega))
        (fun q hq => hok q (by simp [hq]))

/-- C10: when the scan runner hits a raising scan while the job is still
"running" (no cancellation and no external status change up to that point),
the job ends "failed" and its entire result payload is replaced by the dict
holding only the error key — every previously persisted progress field
(processed, total_servers, last_server_id, and any pre-existing keys) is
discarded. -/
theorem c10_fault_replaces_result (cancel : ℕ → Bool) (ext : ℕ → Option String)
    (job : JobRec) (pre rest : List (ServerRec × ScanEvent))
    (server : ServerRec) (msg : String)
    (hrun : job.status = "running")
    (hc : ∀ k ≤ pre.length, cancel k = false)
    (he : ∀ k ≤ pre.length, ext k = none)
    (hok : ∀ p ∈ pre, ∃ cid st, p.2 = ScanEvent.ok cid st) :
    run_job cancel ext job (pre ++ (server, .raise msg) :: rest) =
      ⟨"failed", some [("error", .str msg)], true⟩ := by
  unfold run_job
  rw [if_neg (by simp [hrun])]
  exact runJobLoop_fault cancel ext _ server msg rest pre 0
    { job with result := some (dictSets (baseResult job)
        [("processed", .int 0), ("total_servers", .int (pre ++ (server, .raise msg) :: rest).length)]) }
    [] (by simpa using hrun) (fun k hk => by simpa using hc k hk)
    (fun k hk => by simpa using he k hk) hok

/-- C10 witness: a job carrying stale progress (processed 9 of 12, last
server 77) runs one successful scan and then a scan that raises "boom"; the
final job record is failed with result exactly the error dict. -/
theorem c10_fault_replaces_result_witness :
    jobStale.status = "running" ∧
    run_job (fun _ => false) (fun _ => none) jobStale eventsFault =
      ⟨"failed", some [("error", .str "boom")], true⟩ := by
  refine ⟨rfl, ?_⟩
  have h := c10_fault_replaces_result (fun _ => false) (fun _ => none) jobStale
    [(⟨1⟩, .ok 100 "ok")] [(⟨3⟩, .ok 101 "ok")] ⟨2⟩ "boom" rfl
    (fun k _ => rfl) (fun k _ => rfl)
    (fun p hp => by
      simp only [List.mem_singleton] at hp
      subst hp
      exact ⟨100, "ok", rfl⟩)
  simpa [eventsFault] using h

end Vlsc
